import Mathlib

/-!
Verification development for the `stupid-campus-run` trajectory generator
(`route.py`).  The Python source is shallowly embedded over `ℝ`:

* Python floats are idealised as real numbers (every float is a real, and we
  work with the exact arithmetic the expressions denote);
* calls into Python's global `random` module are modelled by an explicit
  entropy stream `e : ℕ → ℝ` together with a cursor `p : ℕ` that every
  stateful operation threads through: the `k`-th random draw of a run reads
  `e k`.  `random.gauss mu sigma` is modelled as `mu + sigma * e k` (the
  stream value plays the role of the standard normal deviate, which can take
  any real value); `random.uniform a b` as `a + (b - a) * fract (e k)`;
  `random.random()` as `fract (e k)`; `random.choice` / `random.choices`
  select by the fractional part of the draw exactly as CPython selects by a
  uniform variate in `[0,1)`.
* Python's `%` on floats (with positive divisor) is `pymod`, `int(...)` is
  truncation toward zero (`pyTrunc`), and `while` loops are embedded with an
  explicit fuel that is provably sufficient for the loop's exit condition.
-/

namespace CampusRun

/-- Entropy stream: the `k`-th call into `random` observes `e k`. -/
abbrev Ent := ℕ → ℝ

/-- Fractional part, used to turn a stream draw into a `[0,1)` variate. -/
noncomputable def fract (x : ℝ) : ℝ := x - ⌊x⌋

/-- Model of `random.uniform a b` from one stream draw. -/
noncomputable def pyUniform (a b u : ℝ) : ℝ := a + (b - a) * fract u

/-- Model of `random.gauss mu sigma`: the stream draw is the standard normal deviate. -/
def pyGauss (mu sigma u : ℝ) : ℝ := mu + sigma * u

/-- Model of `random.random()` from one stream draw. -/
noncomputable def pyRandom (u : ℝ) : ℝ := fract u

/-- Python `a % b` for floats (result in `[0, b)` for `b > 0`). -/
noncomputable def pymod (a b : ℝ) : ℝ := a - b * ⌊a / b⌋

/-- Python `int(x)`: truncation toward zero. -/
noncomputable def pyTrunc (x : ℝ) : ℤ := if 0 ≤ x then ⌊x⌋ else -⌊-x⌋

/-- Model of `random.choice [a, b]` (two-element list): uniform index from one draw. -/
noncomputable def pyChoice2 {α : Type} (a b : α) (u : ℝ) : α :=
  if fract u < 1 / 2 then a else b

/-- Model of `random.choices [a, b] weights=[w1, w2]` from one draw. -/
noncomputable def pyChoicesW2 {α : Type} (a b : α) (w1 w2 : ℝ) (u : ℝ) : α :=
  if fract u * (w1 + w2) < w1 then a else b

/-- Model of `random.choices [a, b, c] weights=[w1, w2, w3]` from one draw. -/
noncomputable def pyChoicesW3 {α : Type} (a b c : α) (w1 w2 w3 : ℝ) (u : ℝ) : α :=
  if fract u * (w1 + w2 + w3) < w1 then a
  else if fract u * (w1 + w2 + w3) < w1 + w2 then b
  else c

/-! ## Layer 1: `TrackGeometry` (`route.py` lines 59-131) -/

/-- State of `TrackGeometry` after `__init__`. -/
structure TrackGeometry where
  straight_length : ℝ
  band_radius : ℝ
  rotation : ℝ
  band_circumference : ℝ
  total_circumference : ℝ

/-- Embedding of `TrackGeometry.__init__(straight_length, band_radius, rotation)`.
The constructor stores its arguments and the two derived lengths; the source
performs no validation and has no failure path, so the embedding is a total
function. -/
noncomputable def TrackGeometry.init (straight_length band_radius rotation : ℝ) :
    TrackGeometry :=
  { straight_length := straight_length
    band_radius := band_radius
    rotation := rotation
    band_circumference := Real.pi * band_radius
    total_circumference := 2 * straight_length + 2 * (Real.pi * band_radius) }

/-- Embedding of `TrackGeometry.get_position_on_track(distance, lane_radius_offset)`. -/
noncomputable def TrackGeometry.getPositionOnTrack (tg : TrackGeometry)
    (distance lane_radius_offset : ℝ) : ℝ × ℝ :=
  let d := pymod distance tg.total_circumference
  let er := tg.band_radius + lane_radius_offset
  if d ≤ tg.straight_length then
    (tg.straight_length / 2 - d, -er)
  else if d ≤ tg.straight_length + tg.band_circumference then
    let angle := (d - tg.straight_length) / tg.band_radius
    (-tg.straight_length / 2 - er * Real.sin angle, -er * Real.cos angle)
  else if d ≤ 2 * tg.straight_length + tg.band_circumference then
    (-tg.straight_length / 2 + (d - (tg.straight_length + tg.band_circumference)), er)
  else
    let angle := (d - (2 * tg.straight_length + tg.band_circumference)) / tg.band_radius
    (tg.straight_length / 2 + er * Real.sin angle, er * Real.cos angle)

/-- The default track of the repository: `TrackGeometry(84.39, 36.5, 90)`. -/
noncomputable def defaultTrack : TrackGeometry := TrackGeometry.init 84.39 36.5 90

/-! Basic facts about `pymod`. -/

theorem pymod_period (a L : ℝ) (hL : L ≠ 0) : pymod (a + L) L = pymod a L := by
  unfold pymod
  have h1 : (a + L) / L = a / L + 1 := by field_simp
  rw [h1, Int.floor_add_one]
  push_cast
  ring

theorem pymod_self (L : ℝ) (hL : L ≠ 0) : pymod L L = 0 := by
  unfold pymod
  rw [div_self hL]
  simp

theorem pymod_zero_left (L : ℝ) : pymod 0 L = 0 := by
  unfold pymod
  simp

theorem defaultTrack_total_pos : 0 < defaultTrack.total_circumference := by
  show (0:ℝ) < 2 * (84.39:ℝ) + 2 * (Real.pi * 36.5)
  have h := Real.pi_pos
  nlinarith

theorem defaultTrack_total_lb : (398.116 : ℝ) < defaultTrack.total_circumference := by
  show (398.116:ℝ) < 2 * (84.39:ℝ) + 2 * (Real.pi * 36.5)
  have h := Real.pi_gt_d6
  nlinarith

theorem defaultTrack_total_ub : defaultTrack.total_circumference < (398.117 : ℝ) := by
  show 2 * (84.39:ℝ) + 2 * (Real.pi * 36.5) < (398.117:ℝ)
  have h := Real.pi_lt_d2
  have h2 := Real.pi_gt_d6
  nlinarith [Real.pi_lt_d6]

/-- The planar position depends on the input distance only through
`pymod distance total_circumference`. -/
theorem getPositionOnTrack_congr (tg : TrackGeometry) (d d' r : ℝ)
    (h : pymod d tg.total_circumference = pymod d' tg.total_circumference) :
    tg.getPositionOnTrack d r = tg.getPositionOnTrack d' r := by
  unfold TrackGeometry.getPositionOnTrack
  rw [h]

/-- Evaluation of the phase-1 (first straight) branch. -/
theorem getPositionOnTrack_eval₁ (tg : TrackGeometry) (d r : ℝ)
    (h : pymod d tg.total_circumference ≤ tg.straight_length) :
    tg.getPositionOnTrack d r =
      (tg.straight_length / 2 - pymod d tg.total_circumference,
       -(tg.band_radius + r)) := by
  simp only [TrackGeometry.getPositionOnTrack]
  rw [if_pos h]

theorem defaultTrack_straight : defaultTrack.straight_length = 84.39 := rfl

theorem defaultTrack_radius : defaultTrack.band_radius = 36.5 := rfl

/-- Claim C4 — For every distance `d` and zero lateral offset,
`position(d, 0) = position(d + totalCourseLength, 0)` (exact equality of the
embedding, hence in particular within floating tolerance), and an input
distance of exactly the total course length maps to the same point as
distance zero. -/
theorem claim_C4_position_periodic :
    (∀ d : ℝ, defaultTrack.getPositionOnTrack d 0 =
        defaultTrack.getPositionOnTrack (d + defaultTrack.total_circumference) 0) ∧
    defaultTrack.getPositionOnTrack defaultTrack.total_circumference 0 =
      defaultTrack.getPositionOnTrack 0 0 := by
  have hL := ne_of_gt defaultTrack_total_pos
  constructor
  · intro d
    exact (getPositionOnTrack_congr _ _ _ _ (pymod_period d _ hL)).symm
  · exact getPositionOnTrack_congr _ _ _ _ (by rw [pymod_self _ hL, pymod_zero_left])

/-- Claim C9, counterexample — With the source's parameters
(`straight_length = 84.39`, `band_radius = 36.5`) the derived total course
length is below 399 m (it is `2·84.39 + 2·π·36.5 ≈ 398.116` m, not
`≈ 400.0017` m), and `position(400.0017, 0)` is more than one metre away
from `position(0, 0)` in the x coordinate — not within `1e-6` m. -/
theorem claim_C9_counterexample :
    defaultTrack.total_circumference < 399 ∧
    1 < (defaultTrack.getPositionOnTrack 0 0).1 -
        (defaultTrack.getPositionOnTrack 400.0017 0).1 := by
  have hub := defaultTrack_total_ub
  have hlb := defaultTrack_total_lb
  have hpos := defaultTrack_total_pos
  refine ⟨by linarith, ?_⟩
  have hfloor : ⌊(400.0017 : ℝ) / defaultTrack.total_circumference⌋ = 1 := by
    rw [Int.floor_eq_iff]
    constructor
    · rw [le_div_iff₀ hpos]
      push_cast
      linarith
    · rw [div_lt_iff₀ hpos]
      push_cast
      linarith
  have hmod : pymod 400.0017 defaultTrack.total_circumference =
      400.0017 - defaultTrack.total_circumference := by
    unfold pymod
    rw [hfloor]
    push_cast
    ring
  have h0 : pymod 0 defaultTrack.total_circumference = 0 := pymod_zero_left _
  have e0 := getPositionOnTrack_eval₁ defaultTrack 0 0
    (by rw [h0, defaultTrack_straight]; norm_num)
  have e4 := getPositionOnTrack_eval₁ defaultTrack 400.0017 0
    (by rw [hmod, defaultTrack_straight]; linarith)
  rw [e0, e4, h0, hmod]
  simp only
  linarith

/-- Claim C9, amended — With `straight_length = 84.39` and `band_radius = 36.5`
the derived total course length `2·84.39 + 2·π·36.5` lies in
`(398.116, 398.117)` (≈ 398.12 m), and `position(totalLength, 0)` equals
`position(0, 0)` exactly. -/
theorem claim_C9_amended :
    (398.116 : ℝ) < defaultTrack.total_circumference ∧
    defaultTrack.total_circumference < 398.117 ∧
    defaultTrack.total_circumference = 2 * 84.39 + 2 * (Real.pi * 36.5) ∧
    defaultTrack.getPositionOnTrack defaultTrack.total_circumference 0 =
      defaultTrack.getPositionOnTrack 0 0 := by
  refine ⟨defaultTrack_total_lb, defaultTrack_total_ub, rfl, ?_⟩
  exact getPositionOnTrack_congr _ _ _ _
    (by rw [pymod_self _ (ne_of_gt defaultTrack_total_pos), pymod_zero_left])

/-! ## Layer 2: `RealisticRunner` (`route.py` lines 134-496)

The runner state holds every field read or written by the embedded methods:
`update` (lines 310-379), `_update_walking_to_track` (381-416),
`_trigger_rest` (the live definition, 457-467) and `_change_state` (469-496).
Fields that only the dead code paths touch (lane-offset state, Perlin noise,
corner-cutting state) are omitted: after the statement
`current_speed *= speed_variation` the body of `update` ends, so the
lane/corner machinery (including the first, shadowed `_trigger_rest`
definition holding the orphaned remainder of `update`) is unreachable.
The three track lengths the live paths read are stored as plain fields
(they are `self.track.straight_length`, `self.track.band_circumference`,
`self.track.total_circumference`). -/

/-- The `RunnerState` enum. -/
inductive RState where
  | RUNNING
  | JOGGING
  | WALKING
  | RESTING
deriving DecidableEq

/-- Lower bounds of `state_durations` (`route.py` lines 151-156). -/
def stateDurationLo : RState → ℝ
  | .RUNNING => 180
  | .JOGGING => 15
  | .WALKING => 5
  | .RESTING => 10

/-- Upper bounds of `state_durations`. -/
def stateDurationHi : RState → ℝ
  | .RUNNING => 420
  | .JOGGING => 40
  | .WALKING => 15
  | .RESTING => 30

/-- The `speed_multipliers` table (`route.py` lines 166-171). -/
def speedMultiplier : RState → ℝ
  | .RUNNING => 1.45
  | .JOGGING => 1.15
  | .WALKING => 0.85
  | .RESTING => 0

/-- Mutable state of a `RealisticRunner` (live fields). -/
structure Runner where
  straight_length : ℝ
  band_circumference : ℝ
  total_circumference : ℝ
  base_speed : ℝ
  state : RState
  state_time : ℝ
  next_state_change : ℝ
  true_x : ℝ
  true_y : ℝ
  cumulative_distance : ℝ
  walking_to_track : Bool
  walking_progress : ℝ
  walking_path_points : List (ℝ × ℝ)
  track_entry_position : ℝ × ℝ
  rest_trigger_laps : ℤ
  rest_triggered_this_lap : Bool
  has_rested_ever : Bool
  total_time : ℝ
  pace_check_interval : ℝ
  last_pace_check_time : ℝ
  target_min_speed : ℝ
  target_avg_speed : ℝ

/-- Total length of a polyline, as computed by the loops in
`_update_walking_to_track` and `_update_cutting_corner`. -/
noncomputable def pathLength : List (ℝ × ℝ) → ℝ
  | p1 :: p2 :: rest =>
      Real.sqrt ((p2.1 - p1.1) ^ 2 + (p2.2 - p1.2) ^ 2) + pathLength (p2 :: rest)
  | _ => 0

/-- Embedding of `RealisticRunner._update_walking_to_track(dt)` (`route.py` 381-416). -/
noncomputable def Runner.updateWalkingToTrack (dt : ℝ) (r : Runner) : Runner :=
  let total := pathLength r.walking_path_points
  let wp := if 0 < total then r.walking_progress + 0.56 * dt / total
            else r.walking_progress
  if 1 ≤ wp then
    { r with walking_progress := wp, walking_to_track := false,
             true_x := r.track_entry_position.1,
             true_y := r.track_entry_position.2 }
  else
    let n := r.walking_path_points.length
    let ti := min (pyTrunc (wp * ((n : ℝ) - 1))).toNat (n - 1)
    if ti < n - 1 then
      let p1 := r.walking_path_points.getD ti (0, 0)
      let p2 := r.walking_path_points.getD (ti + 1) (0, 0)
      let lp := wp * ((n : ℝ) - 1) - (ti : ℝ)
      { r with walking_progress := wp,
               true_x := p1.1 + (p2.1 - p1.1) * lp,
               true_y := p1.2 + (p2.2 - p1.2) * lp }
    else
      let q := r.walking_path_points.getD ti (0, 0)
      { r with walking_progress := wp, true_x := q.1, true_y := q.2 }

/-- Embedding of `RealisticRunner._trigger_rest()` — the live (second) definition
(`route.py` 457-467). -/
noncomputable def Runner.triggerRest (e : Ent) (r : Runner) (p : ℕ) :
    Runner × ℕ :=
  ({ r with state := RState.RESTING, state_time := 0,
            next_state_change :=
              pyUniform (stateDurationLo RState.RESTING)
                (stateDurationHi RState.RESTING) (e p),
            rest_triggered_this_lap := true,
            has_rested_ever := true }, p + 1)

/-- Embedding of `RealisticRunner._change_state()` (`route.py` 469-496). -/
noncomputable def Runner.changeState (e : Ent) (r : Runner) (p : ℕ) :
    Runner × ℕ :=
  let sp : RState × ℕ :=
    match r.state with
    | RState.RUNNING =>
        (pyChoicesW3 RState.RUNNING RState.JOGGING RState.WALKING 90 8 2 (e p),
         p + 1)
    | RState.JOGGING =>
        (pyChoicesW3 RState.RUNNING RState.JOGGING RState.WALKING 80 18 2 (e p),
         p + 1)
    | RState.WALKING =>
        (pyChoicesW2 RState.RUNNING RState.JOGGING 85 15 (e p), p + 1)
    | RState.RESTING => (RState.RUNNING, p)
  ({ r with state := sp.1, state_time := 0,
            next_state_change :=
              pyUniform (stateDurationLo sp.1) (stateDurationHi sp.1)
                (e sp.2) }, sp.2 + 1)

/-- Step 1 of `update`: the real-time pace governor (`route.py` 325-347). -/
noncomputable def Runner.paceCheck (e : Ent) (r : Runner) (p : ℕ) :
    Runner × ℕ :=
  if r.total_time - r.last_pace_check_time ≥ r.pace_check_interval then
    let r1 := { r with last_pace_check_time := r.total_time }
    if r1.total_time > 30 ∧ r1.cumulative_distance > 0 then
      let avg := r1.cumulative_distance / r1.total_time
      if avg < r1.target_min_speed then
        if r1.state ≠ RState.RUNNING then
          ({ r1 with state := RState.RUNNING, state_time := 0,
                     next_state_change :=
                       pyUniform (stateDurationLo RState.RUNNING)
                         (stateDurationHi RState.RUNNING) (e p) }, p + 1)
        else (r1, p)
      else if avg < r1.target_avg_speed then
        if r1.state = RState.WALKING ∨ r1.state = RState.RESTING then
          let st := pyChoice2 RState.JOGGING RState.RUNNING (e p)
          ({ r1 with state := st, state_time := 0,
                     next_state_change :=
                       pyUniform (stateDurationLo st) (stateDurationHi st)
                         (e (p + 1)) }, p + 2)
        else (r1, p)
      else (r1, p)
    else (r1, p)
  else (r, p)

/-- Step 2 of `update`: the one-time rest trigger check (`route.py` 349-368).
`random.random()` is drawn only when the progress window test passes, matching
Python's short-circuit evaluation. -/
noncomputable def Runner.restCheck (e : Ent) (dt : ℝ) (r : Runner) (p : ℕ) :
    Runner × ℕ :=
  let current_lap := pyTrunc (r.cumulative_distance / r.total_circumference)
  if r.has_rested_ever = false ∧ current_lap = r.rest_trigger_laps then
    let dil := pymod r.cumulative_distance r.total_circumference
    if r.rest_triggered_this_lap = false then
      if dil ≤ r.straight_length then
        let prog := dil / r.straight_length
        if 0.3 ≤ prog ∧ prog ≤ 0.7 then
          if pyRandom (e p) < 0.05 * dt then Runner.triggerRest e r (p + 1)
          else (r, p + 1)
        else (r, p)
      else if r.straight_length + r.band_circumference < dil ∧
          dil ≤ 2 * r.straight_length + r.band_circumference then
        let prog := (dil - (r.straight_length + r.band_circumference)) /
          r.straight_length
        if 0.3 ≤ prog ∧ prog ≤ 0.7 then
          if pyRandom (e p) < 0.05 * dt then Runner.triggerRest e r (p + 1)
          else (r, p + 1)
        else (r, p)
      else (r, p)
    else (r, p)
  else (r, p)

/-- Embedding of `RealisticRunner.update(dt)` (`route.py` 310-379).
The method body ends right after computing `current_speed` and its ±5%
jitter (one `random.uniform` draw, line 378): the computed speed is
discarded and neither `cumulative_distance` nor the true position is
advanced — the remainder of the intended body sits in the dead, shadowed
first `_trigger_rest` definition (lines 418-455). -/
noncomputable def Runner.update (e : Ent) (dt : ℝ) (r : Runner) (p : ℕ) :
    Runner × ℕ :=
  if r.walking_to_track then (Runner.updateWalkingToTrack dt r, p)
  else
    let r1 := { r with total_time := r.total_time + dt }
    let s2 := Runner.paceCheck e r1 p
    let s3 := Runner.restCheck e dt s2.1 s2.2
    let r4 := { s3.1 with state_time := s3.1.state_time + dt }
    let s5 := if r4.state_time ≥ r4.next_state_change
              then Runner.changeState e r4 s3.2 else (r4, s3.2)
    (s5.1, s5.2 + 1)

/-- Iteration: `n` successive calls of `update(dt)`. -/
noncomputable def iterUpdate (e : Ent) (dt : ℝ) : ℕ → Runner × ℕ → Runner × ℕ
  | 0, s => s
  | n + 1, s => iterUpdate e dt n (Runner.update e dt s.1 s.2)

/-! Field-preservation facts for the live `update` paths. -/

theorem paceCheck_cum (e : Ent) (r : Runner) (p : ℕ) :
    (Runner.paceCheck e r p).1.cumulative_distance = r.cumulative_distance := by
  simp only [Runner.paceCheck]
  split_ifs <;> rfl

theorem restCheck_cum (e : Ent) (dt : ℝ) (r : Runner) (p : ℕ) :
    (Runner.restCheck e dt r p).1.cumulative_distance = r.cumulative_distance := by
  simp only [Runner.restCheck, Runner.triggerRest]
  split_ifs <;> rfl

theorem changeState_cum (e : Ent) (r : Runner) (p : ℕ) :
    (Runner.changeState e r p).1.cumulative_distance = r.cumulative_distance := rfl

theorem walkUpdate_cum (dt : ℝ) (r : Runner) :
    (Runner.updateWalkingToTrack dt r).cumulative_distance =
      r.cumulative_distance := by
  simp only [Runner.updateWalkingToTrack]
  split_ifs <;> rfl

theorem update_cum (e : Ent) (dt : ℝ) (r : Runner) (p : ℕ) :
    (Runner.update e dt r p).1.cumulative_distance = r.cumulative_distance := by
  simp only [Runner.update]
  split_ifs with hw hc
  · exact walkUpdate_cum dt r
  · rw [changeState_cum]
    exact (restCheck_cum _ _ _ _).trans (paceCheck_cum _ _ _)
  · exact (restCheck_cum _ _ _ _).trans (paceCheck_cum _ _ _)

theorem paceCheck_time (e : Ent) (r : Runner) (p : ℕ) :
    (Runner.paceCheck e r p).1.total_time = r.total_time := by
  simp only [Runner.paceCheck]
  split_ifs <;> rfl

theorem restCheck_time (e : Ent) (dt : ℝ) (r : Runner) (p : ℕ) :
    (Runner.restCheck e dt r p).1.total_time = r.total_time := by
  simp only [Runner.restCheck, Runner.triggerRest]
  split_ifs <;> rfl

theorem changeState_time (e : Ent) (r : Runner) (p : ℕ) :
    (Runner.changeState e r p).1.total_time = r.total_time := rfl

theorem update_time (e : Ent) (dt : ℝ) (r : Runner) (p : ℕ)
    (hw : r.walking_to_track = false) :
    (Runner.update e dt r p).1.total_time = r.total_time + dt := by
  simp only [Runner.update, hw, Bool.false_eq_true, if_false]
  split_ifs with hc
  · rw [changeState_time]
    exact (restCheck_time _ _ _ _).trans (paceCheck_time _ _ _)
  · exact (restCheck_time _ _ _ _).trans (paceCheck_time _ _ _)

theorem paceCheck_walking (e : Ent) (r : Runner) (p : ℕ) :
    (Runner.paceCheck e r p).1.walking_to_track = r.walking_to_track := by
  simp only [Runner.paceCheck]
  split_ifs <;> rfl

theorem restCheck_walking (e : Ent) (dt : ℝ) (r : Runner) (p : ℕ) :
    (Runner.restCheck e dt r p).1.walking_to_track = r.walking_to_track := by
  simp only [Runner.restCheck, Runner.triggerRest]
  split_ifs <;> rfl

theorem changeState_walking (e : Ent) (r : Runner) (p : ℕ) :
    (Runner.changeState e r p).1.walking_to_track = r.walking_to_track := rfl

theorem update_walking (e : Ent) (dt : ℝ) (r : Runner) (p : ℕ)
    (hw : r.walking_to_track = false) :
    (Runner.update e dt r p).1.walking_to_track = false := by
  simp only [Runner.update, hw, Bool.false_eq_true, if_false]
  split_ifs with hc
  · rw [changeState_walking]
    exact ((restCheck_walking _ _ _ _).trans (paceCheck_walking _ _ _)).trans rfl
  · exact ((restCheck_walking _ _ _ _).trans (paceCheck_walking _ _ _)).trans rfl

/-- Invariant along iterated non-approach updates: cumulative distance is
frozen, total time advances by `dt` per call, the approach flag stays off. -/
theorem iterUpdate_frozen (e : Ent) (dt : ℝ) (n : ℕ) :
    ∀ r p, r.walking_to_track = false →
      (iterUpdate e dt n (r, p)).1.cumulative_distance = r.cumulative_distance ∧
      (iterUpdate e dt n (r, p)).1.total_time = r.total_time + n * dt ∧
      (iterUpdate e dt n (r, p)).1.walking_to_track = false := by
  induction n with
  | zero => intro r p hw; simp [iterUpdate, hw]
  | succ n ih =>
      intro r p hw
      obtain ⟨h1, h2, h3⟩ := ih (Runner.update e dt r p).1 (Runner.update e dt r p).2
        (update_walking e dt r p hw)
      refine ⟨?_, ?_, ?_⟩
      · rw [show iterUpdate e dt (n + 1) (r, p) =
              iterUpdate e dt n (Runner.update e dt r p) from rfl] at *
        rw [h1, update_cum]
      · rw [show iterUpdate e dt (n + 1) (r, p) =
              iterUpdate e dt n (Runner.update e dt r p) from rfl] at *
        rw [h2, update_time e dt r p hw]
        push_cast
        ring
      · rw [show iterUpdate e dt (n + 1) (r, p) =
              iterUpdate e dt n (Runner.update e dt r p) from rfl] at *
        exact h3

/-- The runner state right after the pre-course approach has finished, for
the repository's default configuration: base speed 2.56 m/s, fresh timers,
zero cumulative distance, `walking_to_track` already false.  The randomly
initialised fields carry possible values of their initial draws
(`next_state_change ∈ uniform(180, 420)`, `rest_trigger_laps ∈ {3, 4, 5}`). -/
noncomputable def onTrackStart : Runner :=
  { straight_length := 84.39
    band_circumference := Real.pi * 36.5
    total_circumference := 2 * 84.39 + 2 * (Real.pi * 36.5)
    base_speed := 2.56
    state := RState.RUNNING
    state_time := 0
    next_state_change := 300
    true_x := 84.39 / 2
    true_y := -36.5
    cumulative_distance := 0
    walking_to_track := false
    walking_progress := 1
    walking_path_points := []
    track_entry_position := (84.39 / 2, -36.5)
    rest_trigger_laps := 3
    rest_triggered_this_lap := false
    has_rested_ever := false
    total_time := 0
    pace_check_interval := 10
    last_pace_check_time := 0
    target_min_speed := 1000 / 8 / 60
    target_avg_speed := 1000 / 5 / 60 }

/-- Claim C1 — `update(dt)` never advances the cumulative distance: the body of
`update` ends immediately after computing the tick's speed, which is
discarded (the advance-and-reposition code is stranded in the dead, shadowed
first `_trigger_rest` definition).  In particular, starting on-course with
base speed 2.56 m/s, after any number `n` of 0.1 s ticks (600 ticks = 60 s)
the cumulative distance is still 0 m, not ≈ 153.6 m. -/
theorem claim_C1_update_freezes_distance :
    (∀ e dt r p,
      (Runner.update e dt r p).1.cumulative_distance = r.cumulative_distance) ∧
    (∀ e p n,
      (iterUpdate e 0.1 n (onTrackStart, p)).1.cumulative_distance = 0 ∧
      (iterUpdate e 0.1 n (onTrackStart, p)).1.total_time = n * 0.1) := by
  refine ⟨update_cum, fun e p n => ?_⟩
  obtain ⟨h1, h2, _⟩ := iterUpdate_frozen e 0.1 n onTrackStart p rfl
  refine ⟨by rw [h1]; rfl, by rw [h2]; show (0:ℝ) + n * 0.1 = n * 0.1; ring⟩

/-- Claim C2 — The post-hoc average speed does *not* stay above the configured
floor `1000/8/60` m/s: because `update` never advances the cumulative
distance, a full 60 s run (600 ticks of 0.1 s) from the on-course start
state has average speed 0, strictly below the floor (the governor's
forcing branch is unreachable since it is gated on nonzero distance). -/
theorem claim_C2_average_speed_floor_violated :
    ∀ e p,
      (iterUpdate e 0.1 600 (onTrackStart, p)).1.total_time = 60 ∧
      (iterUpdate e 0.1 600 (onTrackStart, p)).1.cumulative_distance /
        (iterUpdate e 0.1 600 (onTrackStart, p)).1.total_time = 0 ∧
      (iterUpdate e 0.1 600 (onTrackStart, p)).1.cumulative_distance /
        (iterUpdate e 0.1 600 (onTrackStart, p)).1.total_time <
        onTrackStart.target_min_speed ∧
      onTrackStart.target_min_speed = 1000 / 8 / 60 := by
  intro e p
  obtain ⟨h1, h2, _⟩ := iterUpdate_frozen e 0.1 600 onTrackStart p rfl
  have ht : (iterUpdate e 0.1 600 (onTrackStart, p)).1.total_time = 60 := by
    rw [h2]; show (0:ℝ) + 600 * 0.1 = 60; norm_num
  have hc : (iterUpdate e 0.1 600 (onTrackStart, p)).1.cumulative_distance = 0 := by
    rw [h1]; rfl
  refine ⟨ht, by rw [hc]; simp, by rw [hc]; simp; show (0:ℝ) < 1000 / 8 / 60; norm_num, rfl⟩

/-! ## Rest-event invariants (claim C5) -/

theorem walkUpdate_state (dt : ℝ) (r : Runner) :
    (Runner.updateWalkingToTrack dt r).state = r.state := by
  simp only [Runner.updateWalkingToTrack]
  split_ifs <;> rfl

theorem walkUpdate_rested (dt : ℝ) (r : Runner) :
    (Runner.updateWalkingToTrack dt r).has_rested_ever = r.has_rested_ever := by
  simp only [Runner.updateWalkingToTrack]
  split_ifs <;> rfl

theorem paceCheck_rested (e : Ent) (r : Runner) (p : ℕ) :
    (Runner.paceCheck e r p).1.has_rested_ever = r.has_rested_ever := by
  simp only [Runner.paceCheck]
  split_ifs <;> rfl

theorem changeState_rested (e : Ent) (r : Runner) (p : ℕ) :
    (Runner.changeState e r p).1.has_rested_ever = r.has_rested_ever := rfl

theorem restCheck_rested_mono (e : Ent) (dt : ℝ) (r : Runner) (p : ℕ)
    (h : r.has_rested_ever = true) :
    (Runner.restCheck e dt r p).1.has_rested_ever = true := by
  simp only [Runner.restCheck, Runner.triggerRest]
  split_ifs <;> first | rfl | exact h

/-- The weighted transition table (`_change_state`) never yields the
Resting state: from Resting it returns Running, and the three random menus
contain only Running/Jogging/Walking. -/
theorem changeState_never_resting (e : Ent) (r : Runner) (p : ℕ) :
    (Runner.changeState e r p).1.state ≠ RState.RESTING := by
  cases hr : r.state <;>
    simp only [Runner.changeState, hr, pyChoicesW3, pyChoicesW2] <;>
    (try split_ifs) <;> simp

theorem paceCheck_state_resting (e : Ent) (r : Runner) (p : ℕ)
    (h : (Runner.paceCheck e r p).1.state = RState.RESTING) :
    r.state = RState.RESTING := by
  revert h
  simp only [Runner.paceCheck, pyChoice2]
  split_ifs <;> intro h <;> first | exact h | simp at h

theorem restCheck_state_resting (e : Ent) (dt : ℝ) (r : Runner) (p : ℕ)
    (h : (Runner.restCheck e dt r p).1.state = RState.RESTING) :
    r.state = RState.RESTING ∨
      (r.has_rested_ever = false ∧
        (Runner.restCheck e dt r p).1.has_rested_ever = true) := by
  revert h
  simp only [Runner.restCheck, Runner.triggerRest]
  split_ifs with h1 h2 h3 h4 h5 <;> intro h
  all_goals first
    | exact Or.inl h
    | exact Or.inr ⟨h1.1, rfl⟩

/-- Entering the Resting state in one `update` step is possible only through
the one-time rest trigger: the previous state was already Resting, or the
one-time flag was still unset and the step sets it. -/
theorem update_resting_entry (e : Ent) (dt : ℝ) (r : Runner) (p : ℕ)
    (h : (Runner.update e dt r p).1.state = RState.RESTING) :
    r.state = RState.RESTING ∨
      (r.has_rested_ever = false ∧
        (Runner.update e dt r p).1.has_rested_ever = true) := by
  revert h
  simp only [Runner.update]
  split_ifs with hw hc <;> intro h
  · exact Or.inl ((walkUpdate_state dt r).symm.trans h)
  · exact absurd h (changeState_never_resting _ _ _)
  · rcases restCheck_state_resting e dt _ _ h with h3 | ⟨h4, h5⟩
    · have h3' := paceCheck_state_resting e _ p h3
      exact Or.inl h3'
    · have h4' := (paceCheck_rested e _ p).symm.trans h4
      exact Or.inr ⟨h4', h5⟩

/-- Monotonicity: `has_rested_ever` is monotone along `update`. -/
theorem update_rested_mono (e : Ent) (dt : ℝ) (r : Runner) (p : ℕ)
    (h : r.has_rested_ever = true) :
    (Runner.update e dt r p).1.has_rested_ever = true := by
  simp only [Runner.update]
  split_ifs with hw hc
  · exact (walkUpdate_rested dt r).trans h
  · rw [changeState_rested]
    exact restCheck_rested_mono _ _ _ _ ((paceCheck_rested _ _ _).trans h)
  · exact restCheck_rested_mono _ _ _ _ ((paceCheck_rested _ _ _).trans h)

theorem iterUpdate_add (e : Ent) (dt : ℝ) (m n : ℕ) (s : Runner × ℕ) :
    iterUpdate e dt (m + n) s = iterUpdate e dt n (iterUpdate e dt m s) := by
  induction m generalizing s with
  | zero => rw [Nat.zero_add]; rfl
  | succ m ih =>
      rw [show m + 1 + n = (m + n) + 1 from by omega]
      show iterUpdate e dt (m + n) (Runner.update e dt s.1 s.2) = _
      rw [ih]
      rfl

theorem iterUpdate_rested_mono (e : Ent) (dt : ℝ) (n : ℕ) :
    ∀ s : Runner × ℕ, s.1.has_rested_ever = true →
      (iterUpdate e dt n s).1.has_rested_ever = true := by
  induction n with
  | zero => intro s h; exact h
  | succ n ih =>
      intro s h
      exact ih _ (update_rested_mono e dt s.1 s.2 h)

/-- The run enters the Resting state at tick `n` (transition between the
states after `n` and after `n + 1` calls of `update(dt)`). -/
noncomputable def entersRest (e : Ent) (dt : ℝ) (r : Runner) (p : ℕ) (n : ℕ) :
    Prop :=
  (iterUpdate e dt n (r, p)).1.state ≠ RState.RESTING ∧
  (iterUpdate e dt (n + 1) (r, p)).1.state = RState.RESTING

theorem entersRest_flags (e : Ent) (dt : ℝ) (r : Runner) (p : ℕ) (n : ℕ)
    (h : entersRest e dt r p n) :
    (iterUpdate e dt n (r, p)).1.has_rested_ever = false ∧
    (iterUpdate e dt (n + 1) (r, p)).1.has_rested_ever = true := by
  obtain ⟨h1, h2⟩ := h
  rw [iterUpdate_add e dt n 1 (r, p)] at h2 ⊢
  have h3 := update_resting_entry e dt (iterUpdate e dt n (r, p)).1
    (iterUpdate e dt n (r, p)).2 h2
  rcases h3 with h3 | ⟨h4, h5⟩
  · exact absurd h3 h1
  · exact ⟨h4, h5⟩

theorem entersRest_unique (e : Ent) (dt : ℝ) (r : Runner) (p : ℕ) (i j : ℕ)
    (hi : entersRest e dt r p i) (hj : entersRest e dt r p j) : i = j := by
  by_contra hne
  wlog hij : i < j generalizing i j
  · exact this j i hj hi (Ne.symm hne) (by omega)
  have h1 := (entersRest_flags e dt r p i hi).2
  have h2 := (entersRest_flags e dt r p j hj).1
  have hj' : j = (i + 1) + (j - (i + 1)) := by omega
  rw [hj', iterUpdate_add] at h2
  rw [iterUpdate_rested_mono e dt (j - (i + 1)) _ h1] at h2
  exact absurd h2 (by simp)

/-- Claim C5 — (1) At most one rest event occurs along any run: rest entry
ticks are unique, because the one-time flag is required unset at entry, is
set by the trigger, and is never cleared.  (2) The Resting state is never
produced by the weighted transition table `_change_state`.  (3) When the
Resting dwell expires, `_change_state` (the dwell-expiry handler) always
moves to Running. -/
theorem claim_C5_rest_invariants :
    (∀ e dt r p i j, entersRest e dt r p i → entersRest e dt r p j → i = j) ∧
    (∀ e r p, (Runner.changeState e r p).1.state ≠ RState.RESTING) ∧
    (∀ e r p, r.state = RState.RESTING →
      (Runner.changeState e r p).1.state = RState.RUNNING) := by
  refine ⟨entersRest_unique, changeState_never_resting, fun e r p h => ?_⟩
  simp only [Runner.changeState, h]

/-- A concrete runner state in the middle of its rest-trigger lap (lap 3 of a
40 m loop, mid-straight), about to trigger the one-time rest. -/
noncomputable def restStart : Runner :=
  { straight_length := 10
    band_circumference := 10
    total_circumference := 40
    base_speed := 2.56
    state := RState.RUNNING
    state_time := 0
    next_state_change := 300
    true_x := 0
    true_y := 0
    cumulative_distance := 125
    walking_to_track := false
    walking_progress := 1
    walking_path_points := []
    track_entry_position := (0, 0)
    rest_trigger_laps := 3
    rest_triggered_this_lap := false
    has_rested_ever := false
    total_time := 0
    pace_check_interval := 10
    last_pace_check_time := 0
    target_min_speed := 1000 / 8 / 60
    target_avg_speed := 1000 / 5 / 60 }

theorem restStart_update_state :
    (Runner.update (fun _ => (0 : ℝ)) 0.1 restStart 0).1.state =
      RState.RESTING := by
  have hfloor : ⌊(125 : ℝ) / 40⌋ = 3 := by
    rw [show (125 : ℝ) / 40 = 3.125 by norm_num]
    norm_num [Int.floor_eq_iff]
  have hfloor0 : ⌊(0 : ℝ)⌋ = 0 := by norm_num
  norm_num [Runner.update, Runner.paceCheck, Runner.restCheck,
    Runner.triggerRest, restStart, pyRandom, fract, pymod, pyTrunc,
    pyUniform, stateDurationLo, stateDurationHi, hfloor, hfloor0]

theorem restStart_entersRest :
    entersRest (fun _ => (0 : ℝ)) 0.1 restStart 0 0 := by
  constructor
  · show restStart.state ≠ RState.RESTING
    simp [restStart]
  · show (Runner.update (fun _ => (0 : ℝ)) 0.1 restStart 0).1.state =
      RState.RESTING
    exact restStart_update_state

/-- Witness for C5: the rest-invariant theorem applied at a concrete
state that enters the rest at tick 0, and at concrete Resting inputs. -/
theorem claim_C5_rest_invariants_witness :
    (0 : ℕ) = 0 ∧
    (Runner.changeState (fun _ => (0 : ℝ)) restStart 0).1.state ≠
      RState.RESTING ∧
    (Runner.changeState (fun _ => (0 : ℝ))
      { restStart with state := RState.RESTING } 0).1.state =
      RState.RUNNING :=
  ⟨claim_C5_rest_invariants.1 (fun _ => (0 : ℝ)) 0.1 restStart 0 0 0
      restStart_entersRest restStart_entersRest,
   claim_C5_rest_invariants.2.1 (fun _ => (0 : ℝ)) restStart 0,
   claim_C5_rest_invariants.2.2 (fun _ => (0 : ℝ))
      { restStart with state := RState.RESTING } 0 rfl⟩

/-! ## Layer 3: `GPSSensor` (`route.py` lines 681-754) -/

/-- Mutable state of a `GPSSensor`. -/
structure Sensor where
  sampling_rate : ℝ
  noise_std : ℝ
  drift_factor : ℝ
  last_sample_time : ℝ
  noise_x : ℝ
  noise_y : ℝ
  long_term_drift_x : ℝ
  long_term_drift_y : ℝ
  drift_change_timer : ℝ
  next_drift_change : ℝ

/-- Embedding of `GPSSensor.__init__(sampling_rate, noise_std, drift_factor)`
(`route.py` 684-708).  No validation, no failure path; the initial long-term
drift is drawn from `gauss(0, 2.0)` per axis — unclamped. -/
noncomputable def Sensor.init (sampling_rate noise_std drift_factor : ℝ)
    (e : Ent) (p : ℕ) : Sensor × ℕ :=
  ({ sampling_rate := sampling_rate
     noise_std := noise_std
     drift_factor := drift_factor
     last_sample_time := 0
     noise_x := 0
     noise_y := 0
     long_term_drift_x := pyGauss 0 2.0 (e p)
     long_term_drift_y := pyGauss 0 2.0 (e (p + 1))
     drift_change_timer := 0
     next_drift_change := pyUniform 30 120 (e (p + 2)) }, p + 3)

/-- Embedding of `GPSSensor.should_sample(current_time)` (`route.py` 710-729). -/
noncomputable def Sensor.shouldSample (s : Sensor) (current_time : ℝ)
    (e : Ent) (p : ℕ) : Bool × Sensor × ℕ :=
  if current_time - s.last_sample_time ≥ s.sampling_rate then
    let s1 := { s with last_sample_time := current_time,
                       drift_change_timer :=
                         s.drift_change_timer + s.sampling_rate }
    if s1.drift_change_timer ≥ s1.next_drift_change then
      (true,
       { s1 with
           long_term_drift_x :=
             max (-5) (min 5 (s1.long_term_drift_x + pyGauss 0 0.5 (e p)))
           long_term_drift_y :=
             max (-5) (min 5 (s1.long_term_drift_y + pyGauss 0 0.5 (e (p + 1))))
           drift_change_timer := 0
           next_drift_change := pyUniform 30 120 (e (p + 2)) }, p + 3)
    else (true, s1, p)
  else (false, s, p)

/-- Embedding of `GPSSensor.get_gps_reading(true_x, true_y)` (`route.py` 731-754). -/
noncomputable def Sensor.getGpsReading (s : Sensor) (true_x true_y : ℝ)
    (e : Ent) (p : ℕ) : (ℝ × ℝ) × Sensor × ℕ :=
  let nx := s.drift_factor * s.noise_x +
    (1 - s.drift_factor) * pyGauss 0 s.noise_std (e p)
  let ny := s.drift_factor * s.noise_y +
    (1 - s.drift_factor) * pyGauss 0 s.noise_std (e (p + 1))
  ((true_x + s.long_term_drift_x + nx, true_y + s.long_term_drift_y + ny),
   { s with noise_x := nx, noise_y := ny }, p + 2)

/-- Claim C6, counterexample — Immediately after `GPSSensor` construction the
slow-drift vector need *not* lie within `[−5, 5]`: the initial drift is
`gauss(0, 2.0)` with no clamp, so the entropy value 3 (a 3-σ normal
deviate) yields an initial x-drift of 6 m. -/
theorem claim_C6_counterexample :
    ((Sensor.init 1.0 4.5 0.95 (fun _ => 3) 0).1).long_term_drift_x = 6 ∧
    ¬((Sensor.init 1.0 4.5 0.95 (fun _ => 3) 0).1).long_term_drift_x ≤ 5 := by
  norm_num [Sensor.init, pyGauss]

/-- Claim C6, amended — Every drift step applied inside `should_sample` leaves
each axis of the slow-drift vector clamped to `[−5, 5]` (the initial
construction-time drift, by contrast, is an unclamped Gaussian). -/
theorem claim_C6_drift_step_clamped (s : Sensor) (t : ℝ) (e : Ent) (p : ℕ)
    (hdue : t - s.last_sample_time ≥ s.sampling_rate)
    (hexp : s.drift_change_timer + s.sampling_rate ≥ s.next_drift_change) :
    -5 ≤ ((Sensor.shouldSample s t e p).2.1).long_term_drift_x ∧
    ((Sensor.shouldSample s t e p).2.1).long_term_drift_x ≤ 5 ∧
    -5 ≤ ((Sensor.shouldSample s t e p).2.1).long_term_drift_y ∧
    ((Sensor.shouldSample s t e p).2.1).long_term_drift_y ≤ 5 := by
  simp only [Sensor.shouldSample]
  rw [if_pos hdue, if_pos (by simpa using hexp)]
  refine ⟨le_max_left _ _, max_le (by norm_num) (min_le_left _ _),
    le_max_left _ _, max_le (by norm_num) (min_le_left _ _)⟩

/-- Witness for the amended C6 at a concrete expired-timer state. -/
theorem claim_C6_drift_step_clamped_witness :
    -5 ≤ ((Sensor.shouldSample
        { sampling_rate := 1, noise_std := 4.5, drift_factor := 0.95,
          last_sample_time := 0, noise_x := 0, noise_y := 0,
          long_term_drift_x := 4.9, long_term_drift_y := -4.9,
          drift_change_timer := 40, next_drift_change := 35 }
        1 (fun _ => 3) 0).2.1).long_term_drift_x ∧
    ((Sensor.shouldSample
        { sampling_rate := 1, noise_std := 4.5, drift_factor := 0.95,
          last_sample_time := 0, noise_x := 0, noise_y := 0,
          long_term_drift_x := 4.9, long_term_drift_y := -4.9,
          drift_change_timer := 40, next_drift_change := 35 }
        1 (fun _ => 3) 0).2.1).long_term_drift_x ≤ 5 ∧
    -5 ≤ ((Sensor.shouldSample
        { sampling_rate := 1, noise_std := 4.5, drift_factor := 0.95,
          last_sample_time := 0, noise_x := 0, noise_y := 0,
          long_term_drift_x := 4.9, long_term_drift_y := -4.9,
          drift_change_timer := 40, next_drift_change := 35 }
        1 (fun _ => 3) 0).2.1).long_term_drift_y ∧
    ((Sensor.shouldSample
        { sampling_rate := 1, noise_std := 4.5, drift_factor := 0.95,
          last_sample_time := 0, noise_x := 0, noise_y := 0,
          long_term_drift_x := 4.9, long_term_drift_y := -4.9,
          drift_change_timer := 40, next_drift_change := 35 }
        1 (fun _ => 3) 0).2.1).long_term_drift_y ≤ 5 :=
  claim_C6_drift_step_clamped _ 1 (fun _ => 3) 0 (by norm_num) (by norm_num)

/-- Claim C7, counterexample — Construction performs no validation at all:
`TrackGeometry(-1, -2, 90)` succeeds silently, storing the non-positive
lengths verbatim, and `GPSSensor` accepts a drift (autocorrelation) factor
of 2, far outside `[0, 1]`, storing it verbatim. -/
theorem claim_C7_counterexample :
    (TrackGeometry.init (-1) (-2) 90).straight_length = -1 ∧
    (TrackGeometry.init (-1) (-2) 90).band_radius = -2 ∧
    ((Sensor.init 1.0 4.5 2 (fun _ => 0) 0).1).drift_factor = 2 := by
  refine ⟨rfl, rfl, rfl⟩

/-- Claim C7, amended — The constructors of the core components are total and
validate nothing: whatever values are supplied (non-positive lengths and
radii, out-of-range autocorrelation factors included), construction
succeeds and stores them unchanged. -/
theorem claim_C7_no_validation (sl br rot rate std df : ℝ) (e : Ent) (p : ℕ) :
    (TrackGeometry.init sl br rot).straight_length = sl ∧
    (TrackGeometry.init sl br rot).band_radius = br ∧
    (TrackGeometry.init sl br rot).rotation = rot ∧
    ((Sensor.init rate std df e p).1).sampling_rate = rate ∧
    ((Sensor.init rate std df e p).1).noise_std = std ∧
    ((Sensor.init rate std df e p).1).drift_factor = df :=
  ⟨rfl, rfl, rfl, rfl, rfl, rfl⟩

/-! ## `RouteGenerator` (`route.py` lines 757-1027) -/

/-- The `track_config` fields read by the embedded `RouteGenerator`
methods. -/
structure Config where
  center_lat : ℝ
  center_lng : ℝ
  rotation : ℝ
  simulation_dt : ℝ

/-- Embedding of `RouteGenerator._local_to_latlon(x, y)` (`route.py` 905-936). -/
noncomputable def localToLatLon (cfg : Config) (x y : ℝ) : ℝ × ℝ :=
  let rotation_rad := cfg.rotation * Real.pi / 180
  let cos_rot := Real.cos rotation_rad
  let sin_rot := Real.sin rotation_rad
  let x_rotated := x * cos_rot - y * sin_rot
  let y_rotated := x * sin_rot + y * cos_rot
  let earth_radius : ℝ := 6378137
  let rad_lat := cfg.center_lat * Real.pi / 180
  let lng_per_meter := 1 / (earth_radius * Real.cos rad_lat)
  let lat_per_meter := 1 / earth_radius
  (cfg.center_lat + y_rotated * lat_per_meter * (180 / Real.pi),
   cfg.center_lng + x_rotated * lng_per_meter * (180 / Real.pi))

/-- Mutable state of a `RouteGenerator`. -/
structure GenState where
  cfg : Config
  runner : Runner
  sensor : Sensor
  simulation_time : ℝ

/-- Fuel sufficient for the `while self.simulation_time < t` fast-forward
loop: the number of `dt`-steps from `sim` up to `t`. -/
noncomputable def ffFuel (sim t dt : ℝ) : ℕ := (⌈(t - sim) / dt⌉).toNat

/-- The fast-forward loop of `get_track_position_with_rotation`
(`route.py` 1006-1009): `while simulation_time < t: runner.update(dt);
simulation_time += dt`. -/
noncomputable def ffLoop (e : Ent) (dt t : ℝ) :
    ℕ → Runner → ℕ → ℝ → Runner × ℕ × ℝ
  | 0, r, p, sim => (r, p, sim)
  | fuel + 1, r, p, sim =>
      if sim < t then
        ffLoop e dt t fuel (Runner.update e dt r p).1 (Runner.update e dt r p).2
          (sim + dt)
      else (r, p, sim)

/-- Embedding of `RouteGenerator.get_track_position_with_rotation(t, ...)`
(`route.py` 981-1027).  The optional center/rotation/offset arguments are
unused by the source body and omitted.  Note that both branches of the
sampling `if` perform the identical `get_gps_reading` call (the
"forced sample"), while `should_sample`'s side effects happen in either
case. -/
noncomputable def getTrackPositionWithRotation (e : Ent) (g : GenState)
    (p : ℕ) (t : ℝ) : (ℝ × ℝ) × GenState × ℕ :=
  let dt := g.cfg.simulation_dt
  let rps :=
    if |t - g.simulation_time| > dt * 2 then
      ffLoop e dt t (ffFuel g.simulation_time t dt) g.runner p
        g.simulation_time
    else (g.runner, p, g.simulation_time)
  let bsp := Sensor.shouldSample g.sensor rps.2.2 e rps.2.1
  let read := Sensor.getGpsReading bsp.2.1 rps.1.true_x rps.1.true_y e bsp.2.2
  (localToLatLon g.cfg read.1.1 read.1.2,
   { cfg := g.cfg, runner := rps.1, sensor := read.2.1,
     simulation_time := rps.2.2 }, read.2.2)

/-! Catch-up behaviour of the fast-forward loop. -/

theorem ffLoop_sim_ge (e : Ent) (dt t : ℝ) :
    ∀ (fuel : ℕ) (r : Runner) (p : ℕ) (sim : ℝ),
      t ≤ sim + fuel * dt → t ≤ (ffLoop e dt t fuel r p sim).2.2 := by
  intro fuel
  induction fuel with
  | zero => intro r p sim h; simpa [ffLoop] using h
  | succ fuel ih =>
      intro r p sim h
      rw [ffLoop]
      split_ifs with hlt
      · exact ih _ _ _ (by push_cast at h ⊢; linarith)
      · simpa using not_lt.mp hlt

theorem ffLoop_sim_lt (e : Ent) (dt t : ℝ) :
    ∀ (fuel : ℕ) (r : Runner) (p : ℕ) (sim : ℝ),
      sim < t + dt → (ffLoop e dt t fuel r p sim).2.2 < t + dt := by
  intro fuel
  induction fuel with
  | zero => intro r p sim h; simpa [ffLoop] using h
  | succ fuel ih =>
      intro r p sim h
      rw [ffLoop]
      split_ifs with hlt
      · exact ih _ _ _ (by linarith)
      · simpa using h

theorem ffFuel_spec (sim t dt : ℝ) (hdt : 0 < dt) :
    t ≤ sim + (ffFuel sim t dt : ℝ) * dt := by
  unfold ffFuel
  rcases le_or_lt t sim with h | h
  · have h0 : (0 : ℝ) ≤ ((⌈(t - sim) / dt⌉.toNat : ℕ) : ℝ) * dt :=
      mul_nonneg (Nat.cast_nonneg _) hdt.le
    linarith
  · have hx : (t - sim) / dt ≤ (⌈(t - sim) / dt⌉ : ℝ) := Int.le_ceil _
    have hpos : (0 : ℤ) ≤ ⌈(t - sim) / dt⌉ :=
      (Int.ceil_pos.mpr (div_pos (by linarith) hdt)).le
    have hc : ((⌈(t - sim) / dt⌉.toNat : ℕ) : ℝ) = (⌈(t - sim) / dt⌉ : ℝ) := by
      exact_mod_cast congrArg Int.cast (Int.toNat_of_nonneg hpos)
    rw [hc]
    have h2 : t - sim ≤ (⌈(t - sim) / dt⌉ : ℝ) * dt := by
      have := mul_le_mul_of_nonneg_right hx hdt.le
      rwa [div_mul_cancel₀ _ (ne_of_gt hdt)] at this
    linarith

/-- Claim C3, amended — If the queried time `t` is ahead of the internal clock
by more than two timesteps, `get_track_position_with_rotation` fast-forwards
the simulation by repeated fixed-step updates until caught up — afterwards
the internal clock satisfies `t ≤ clock < t + dt` — and a (forced) sensor
reading is produced.  (The claimed cadence-independence of the output
sequence is refuted by `claim_C3_counterexample`.) -/
theorem claim_C3_fastforward_catches_up (e : Ent) (g : GenState) (p : ℕ)
    (t : ℝ) (hdt : 0 < g.cfg.simulation_dt)
    (hahead : t - g.simulation_time > 2 * g.cfg.simulation_dt) :
    t ≤ ((getTrackPositionWithRotation e g p t).2.1).simulation_time ∧
    ((getTrackPositionWithRotation e g p t).2.1).simulation_time <
      t + g.cfg.simulation_dt := by
  have hcond : |t - g.simulation_time| > g.cfg.simulation_dt * 2 := by
    rw [abs_of_pos (by linarith)]
    linarith
  simp only [getTrackPositionWithRotation, hcond, if_true, if_pos hcond]
  constructor
  · exact ffLoop_sim_ge e _ t _ g.runner p g.simulation_time
      (ffFuel_spec g.simulation_time t _ hdt)
  · exact ffLoop_sim_lt e _ t _ g.runner p g.simulation_time (by linarith)

/-! ## Polling-cadence comparison (claim C3's identity part)

A concrete orchestrator state, polled once per internal timestep
(`t = 0.1, 0.2, 0.3`) versus polled once at `t = 0.3`, under the same
entropy stream.  Polls within two timesteps of the clock do not advance the
simulation but still mutate the sensor noise memory, so the readings at the
common time `t = 0.3` differ. -/

/-- The entropy stream whose `k`-th draw is `k`. -/
noncomputable def eId : Ent := fun k => (k : ℝ)

noncomputable def cfgW : Config :=
  { center_lat := 31.319, center_lng := 121.393, rotation := 90,
    simulation_dt := 1 / 10 }

/-- A runner still in the pre-course approach phase, on a straight 1 m
approach path. -/
noncomputable def walkRunner : Runner :=
  { straight_length := 10
    band_circumference := 10
    total_circumference := 40
    base_speed := 2.56
    state := RState.RUNNING
    state_time := 0
    next_state_change := 300
    true_x := 0
    true_y := 0
    cumulative_distance := 0
    walking_to_track := true
    walking_progress := 0
    walking_path_points := [(0, 0), (1, 0)]
    track_entry_position := (1, 0)
    rest_trigger_laps := 3
    rest_triggered_this_lap := false
    has_rested_ever := false
    total_time := 0
    pace_check_interval := 10
    last_pace_check_time := 0
    target_min_speed := 1000 / 8 / 60
    target_avg_speed := 1000 / 5 / 60 }

/-- The approach-phase runner after walking a fraction `q` of its path. -/
noncomputable def walkRunnerAt (q : ℝ) : Runner :=
  { walkRunner with walking_progress := q, true_x := q, true_y := 0 }

/-- A sensor with silent noise memory and zero slow drift. -/
noncomputable def zeroSensor : Sensor :=
  { sampling_rate := 1, noise_std := 9 / 2, drift_factor := 19 / 20,
    last_sample_time := 0, noise_x := 0, noise_y := 0,
    long_term_drift_x := 0, long_term_drift_y := 0,
    drift_change_timer := 0, next_drift_change := 60 }

noncomputable def walkGen : GenState :=
  { cfg := cfgW, runner := walkRunner, sensor := zeroSensor,
    simulation_time := 0 }

theorem walk_step1 (e : Ent) (p : ℕ) :
    Runner.update e (1 / 10) walkRunner p = (walkRunnerAt (7 / 125), p) := by
  norm_num [Runner.update, Runner.updateWalkingToTrack, walkRunner,
    walkRunnerAt, pathLength, pyTrunc, Runner.mk.injEq, Prod.ext_iff,
    Real.sqrt_one, List.getD]

theorem walk_step2 (e : Ent) (p : ℕ) :
    Runner.update e (1 / 10) (walkRunnerAt (7 / 125)) p =
      (walkRunnerAt (14 / 125), p) := by
  norm_num [Runner.update, Runner.updateWalkingToTrack, walkRunner,
    walkRunnerAt, pathLength, pyTrunc, Runner.mk.injEq, Prod.ext_iff,
    Real.sqrt_one, List.getD]

theorem walk_step3 (e : Ent) (p : ℕ) :
    Runner.update e (1 / 10) (walkRunnerAt (14 / 125)) p =
      (walkRunnerAt (21 / 125), p) := by
  norm_num [Runner.update, Runner.updateWalkingToTrack, walkRunner,
    walkRunnerAt, pathLength, pyTrunc, Runner.mk.injEq, Prod.ext_iff,
    Real.sqrt_one, List.getD]

theorem ffLoop_walk3 (e : Ent) (p : ℕ) :
    ffLoop e (1 / 10) (3 / 10) 3 walkRunner p 0 =
      (walkRunnerAt (21 / 125), p, 3 / 10) := by
  rw [ffLoop, if_pos (by norm_num : (0 : ℝ) < 3 / 10), walk_step1]
  show ffLoop e (1 / 10) (3 / 10) 2 (walkRunnerAt (7 / 125)) p (0 + 1 / 10) = _
  rw [ffLoop, if_pos (by norm_num : (0 : ℝ) + 1 / 10 < 3 / 10), walk_step2]
  show ffLoop e (1 / 10) (3 / 10) 1 (walkRunnerAt (14 / 125)) p
    (0 + 1 / 10 + 1 / 10) = _
  rw [ffLoop, if_pos (by norm_num : (0 : ℝ) + 1 / 10 + 1 / 10 < 3 / 10),
    walk_step3]
  show ffLoop e (1 / 10) (3 / 10) 0 (walkRunnerAt (21 / 125)) p
    (0 + 1 / 10 + 1 / 10 + 1 / 10) = _
  rw [ffLoop]
  norm_num [Prod.ext_iff]

theorem ffFuel_walk3 : ffFuel 0 (3 / 10) (1 / 10) = 3 := by
  unfold ffFuel
  rw [show ((3 : ℝ) / 10 - 0) / (1 / 10) = ((3 : ℤ) : ℝ) by push_cast; ring,
    Int.ceil_intCast]
  rfl

theorem localToLatLon_lat_rot90 (cfg : Config) (h : cfg.rotation = 90)
    (x y : ℝ) :
    (localToLatLon cfg x y).1 =
      cfg.center_lat + x * (1 / 6378137) * (180 / Real.pi) := by
  simp only [localToLatLon, h]
  rw [show (90 : ℝ) * Real.pi / 180 = Real.pi / 2 by ring,
    Real.sin_pi_div_two, Real.cos_pi_div_two]
  ring

/-- First fine-cadence poll: `t = 0.1` is within two timesteps, so no
fast-forward happens; only the sensor noise memory advances. -/
noncomputable def pollA1 : (ℝ × ℝ) × GenState × ℕ :=
  getTrackPositionWithRotation eId walkGen 0 (1 / 10)

noncomputable def pollA2 : (ℝ × ℝ) × GenState × ℕ :=
  getTrackPositionWithRotation eId pollA1.2.1 pollA1.2.2 (2 / 10)

noncomputable def pollA3 : (ℝ × ℝ) × GenState × ℕ :=
  getTrackPositionWithRotation eId pollA2.2.1 pollA2.2.2 (3 / 10)

/-- Coarse-cadence poll: directly at `t = 0.3`. -/
noncomputable def pollB : (ℝ × ℝ) × GenState × ℕ :=
  getTrackPositionWithRotation eId walkGen 0 (3 / 10)

noncomputable def sensorA1 : Sensor := { zeroSensor with noise_y := 9 / 40 }

noncomputable def sensorA2 : Sensor :=
  { zeroSensor with noise_x := 9 / 20, noise_y := 711 / 800 }

theorem pollA1_state :
    pollA1.2 = (⟨cfgW, walkRunner, sensorA1, 0⟩, 2) := by
  show (getTrackPositionWithRotation eId walkGen 0 (1 / 10)).2 = _
  simp only [getTrackPositionWithRotation, walkGen, cfgW, zeroSensor]
  rw [if_neg (by rw [sub_zero, abs_of_pos] <;> norm_num)]
  simp only [Sensor.shouldSample]
  rw [if_neg (by norm_num)]
  simp only [Sensor.getGpsReading, pyGauss, eId]
  norm_num [Prod.ext_iff, GenState.mk.injEq, Sensor.mk.injEq, sensorA1,
    zeroSensor, walkRunner]

theorem pollA2_state :
    pollA2.2 = (⟨cfgW, walkRunner, sensorA2, 0⟩, 4) := by
  have h1 : pollA1.2.1 = ⟨cfgW, walkRunner, sensorA1, 0⟩ := by
    rw [pollA1_state]
  have h2 : pollA1.2.2 = 2 := by rw [pollA1_state]
  show (getTrackPositionWithRotation eId pollA1.2.1 pollA1.2.2 (2 / 10)).2 = _
  rw [h1, h2]
  simp only [getTrackPositionWithRotation, cfgW, sensorA1, zeroSensor]
  rw [if_neg (by rw [sub_zero, abs_of_pos] <;> norm_num)]
  simp only [Sensor.shouldSample]
  rw [if_neg (by norm_num)]
  simp only [Sensor.getGpsReading, pyGauss, eId]
  norm_num [Prod.ext_iff, GenState.mk.injEq, Sensor.mk.injEq, sensorA2,
    zeroSensor, walkRunner]

theorem pollA3_lat :
    pollA3.1.1 =
      31.319 + (21 / 125 + 531 / 400) * (1 / 6378137) * (180 / Real.pi) := by
  have h1 : pollA2.2.1 = ⟨cfgW, walkRunner, sensorA2, 0⟩ := by
    rw [pollA2_state]
  have h2 : pollA2.2.2 = 4 := by rw [pollA2_state]
  show (getTrackPositionWithRotation eId pollA2.2.1 pollA2.2.2 (3 / 10)).1.1 = _
  rw [h1, h2]
  simp only [getTrackPositionWithRotation, cfgW, sensorA2, zeroSensor]
  rw [if_pos (by rw [sub_zero, abs_of_pos] <;> norm_num), ffFuel_walk3,
    ffLoop_walk3]
  simp only [Sensor.shouldSample]
  rw [if_neg (by norm_num)]
  simp only [Sensor.getGpsReading, pyGauss, eId, walkRunnerAt, walkRunner]
  rw [localToLatLon_lat_rot90 _ rfl]
  norm_num

theorem pollB_lat :
    pollB.1.1 = 31.319 + (21 / 125) * (1 / 6378137) * (180 / Real.pi) := by
  show (getTrackPositionWithRotation eId walkGen 0 (3 / 10)).1.1 = _
  simp only [getTrackPositionWithRotation, walkGen, cfgW, zeroSensor]
  rw [if_pos (by rw [sub_zero, abs_of_pos] <;> norm_num), ffFuel_walk3,
    ffLoop_walk3]
  simp only [Sensor.shouldSample]
  rw [if_neg (by norm_num)]
  simp only [Sensor.getGpsReading, pyGauss, eId, walkRunnerAt, walkRunner]
  rw [localToLatLon_lat_rot90 _ rfl]
  norm_num

/-- Claim C3, counterexample — Under the same entropy stream and from the same
initial orchestrator state, polling `positionAtTime` at the fixed internal
step (`t = 0.1, 0.2, 0.3`) and polling it once at the coarser cadence
(`t = 0.3`) give *different* outputs at the common time `t = 0.3`: each poll
mutates the autocorrelated sensor-noise memory even when the clock does not
advance, so the claimed cadence-independence fails. -/
theorem claim_C3_counterexample : pollA3.1.1 ≠ pollB.1.1 := by
  rw [pollA3_lat, pollB_lat]
  intro h
  have hpi := Real.pi_pos
  have h1 : (21 / 125 + 531 / 400 : ℝ) * (1 / 6378137) * (180 / Real.pi) =
      (21 / 125 : ℝ) * (1 / 6378137) * (180 / Real.pi) := by linarith
  have h2 := mul_right_cancel₀
    (show (180 / Real.pi : ℝ) ≠ 0 from ne_of_gt (by positivity)) h1
  have h3 := mul_right_cancel₀
    (show (1 / 6378137 : ℝ) ≠ 0 by norm_num) h2
  norm_num at h3

/-- Witness for the amended C3 at a concrete ahead-of-clock query. -/
theorem claim_C3_fastforward_catches_up_witness :
    (3 : ℝ) / 10 ≤
      ((getTrackPositionWithRotation eId walkGen 0 (3 / 10)).2.1).simulation_time ∧
    ((getTrackPositionWithRotation eId walkGen 0 (3 / 10)).2.1).simulation_time <
      3 / 10 + walkGen.cfg.simulation_dt :=
  claim_C3_fastforward_catches_up eId walkGen 0 (3 / 10)
    (by norm_num [walkGen, cfgW]) (by norm_num [walkGen, cfgW])

/-! ## `generate_realistic_route` (`route.py` 842-903) -/

/-- One emitted GPS sample (the dict appended to `gps_points`). -/
structure GpsPoint where
  latitude : ℝ
  longitude : ℝ
  timestamp : ℝ
  speed : ℝ
  state : RState
  distance : ℝ

/-- The high-frequency simulation loop of `generate_realistic_route`:
`while simulation_time < duration: runner.update(dt); if
should_sample(simulation_time): capture a sample; simulation_time += dt`. -/
noncomputable def genLoop (e : Ent) (cfg : Config) (duration : ℝ) :
    ℕ → Runner → Sensor → ℕ → ℝ → List GpsPoint →
      List GpsPoint × Runner × Sensor × ℕ × ℝ
  | 0, r, s, p, sim, acc => (acc, r, s, p, sim)
  | fuel + 1, r, s, p, sim, acc =>
      if sim < duration then
        let up := Runner.update e cfg.simulation_dt r p
        let bsp := Sensor.shouldSample s sim e up.2
        if bsp.1 then
          let read := Sensor.getGpsReading bsp.2.1 up.1.true_x up.1.true_y e
            bsp.2.2
          let ll := localToLatLon cfg read.1.1 read.1.2
          genLoop e cfg duration fuel up.1 read.2.1 read.2.2
            (sim + cfg.simulation_dt)
            (acc ++ [{ latitude := ll.1, longitude := ll.2, timestamp := sim,
                       speed := up.1.base_speed * speedMultiplier up.1.state,
                       state := up.1.state,
                       distance := up.1.cumulative_distance }])
        else
          genLoop e cfg duration fuel up.1 bsp.2.1 bsp.2.2
            (sim + cfg.simulation_dt) acc
      else (acc, r, s, p, sim)

/-- Embedding of `RouteGenerator.generate_realistic_route(duration)`, parametrised by the
freshly constructed runner and sensor the source resets at entry (their
construction consumes wall-clock-seeded entropy, so they are inputs here;
`GPSSensor.__init__` always sets `last_sample_time = 0`). -/
noncomputable def generateRealisticRoute (e : Ent) (cfg : Config)
    (r0 : Runner) (s0 : Sensor) (p : ℕ) (duration : ℝ) :
    List GpsPoint × Runner × Sensor × ℕ × ℝ :=
  genLoop e cfg duration (ffFuel 0 duration cfg.simulation_dt) r0 s0 p 0 []

/-- Relation between consecutive emitted samples: strictly increasing
timestamps, spaced by at least the sampling interval and at most one
simulation step more. -/
def sampleRel (rate dt : ℝ) (a b : GpsPoint) : Prop :=
  a.timestamp < b.timestamp ∧ rate ≤ b.timestamp - a.timestamp ∧
    b.timestamp - a.timestamp ≤ rate + dt

theorem shouldSample_false (s : Sensor) (t : ℝ) (e : Ent) (p : ℕ)
    (h : ¬t - s.last_sample_time ≥ s.sampling_rate) :
    Sensor.shouldSample s t e p = (false, s, p) := by
  simp only [Sensor.shouldSample]
  rw [if_neg h]

theorem shouldSample_true_fst (s : Sensor) (t : ℝ) (e : Ent) (p : ℕ)
    (h : t - s.last_sample_time ≥ s.sampling_rate) :
    (Sensor.shouldSample s t e p).1 = true := by
  simp only [Sensor.shouldSample]
  rw [if_pos h]
  split_ifs <;> rfl

theorem shouldSample_true_last (s : Sensor) (t : ℝ) (e : Ent) (p : ℕ)
    (h : t - s.last_sample_time ≥ s.sampling_rate) :
    ((Sensor.shouldSample s t e p).2.1).last_sample_time = t := by
  simp only [Sensor.shouldSample]
  rw [if_pos h]
  split_ifs <;> rfl

theorem shouldSample_true_rate (s : Sensor) (t : ℝ) (e : Ent) (p : ℕ)
    (h : t - s.last_sample_time ≥ s.sampling_rate) :
    ((Sensor.shouldSample s t e p).2.1).sampling_rate = s.sampling_rate := by
  simp only [Sensor.shouldSample]
  rw [if_pos h]
  split_ifs <;> rfl

theorem getGpsReading_last (s : Sensor) (x y : ℝ) (e : Ent) (p : ℕ) :
    ((Sensor.getGpsReading s x y e p).2.1).last_sample_time =
      s.last_sample_time := rfl

theorem getGpsReading_rate (s : Sensor) (x y : ℝ) (e : Ent) (p : ℕ) :
    ((Sensor.getGpsReading s x y e p).2.1).sampling_rate =
      s.sampling_rate := rfl

/-- Loop invariant for `genLoop`, establishing ordering, spacing and the
upper time bound of the emitted samples. -/
theorem genLoop_props (e : Ent) (cfg : Config) (T rate : ℝ)
    (hdt : 0 < cfg.simulation_dt) (hrate : 0 ≤ rate) :
    ∀ (fuel : ℕ) (r : Runner) (s : Sensor) (p : ℕ) (sim : ℝ)
      (acc : List GpsPoint),
      s.sampling_rate = rate →
      sim - s.last_sample_time ≤ rate + cfg.simulation_dt →
      s.last_sample_time ≤ sim →
      (∀ x ∈ acc.getLast?, x.timestamp = s.last_sample_time) →
      (acc ≠ [] → s.last_sample_time + cfg.simulation_dt ≤ sim) →
      List.Chain' (sampleRel rate cfg.simulation_dt) acc →
      (∀ pt ∈ acc, pt.timestamp < T) →
      List.Chain' (sampleRel rate cfg.simulation_dt)
        (genLoop e cfg T fuel r s p sim acc).1 ∧
      (∀ pt ∈ (genLoop e cfg T fuel r s p sim acc).1, pt.timestamp < T) := by
  intro fuel
  induction fuel with
  | zero =>
      intro r s p sim acc _ _ _ _ _ hchain hbound
      exact ⟨hchain, hbound⟩
  | succ fuel ih =>
      intro r s p sim acc hrateq hub hls hlastts hgap hchain hbound
      rw [genLoop]
      split_ifs with hT
      · by_cases hcond :
          sim - s.last_sample_time ≥ s.sampling_rate
        · -- sampling tick
          simp only [shouldSample_true_fst s sim e
            (Runner.update e cfg.simulation_dt r p).2 hcond,
            eq_self_iff_true, if_true]
          apply ih
          · rw [getGpsReading_rate, shouldSample_true_rate s sim e _ hcond,
              hrateq]
          · rw [getGpsReading_last, shouldSample_true_last s sim e _ hcond]
            linarith
          · rw [getGpsReading_last, shouldSample_true_last s sim e _ hcond]
            linarith
          · intro x hx
            rw [List.getLast?_concat] at hx
            simp only [Option.mem_def, Option.some.injEq] at hx
            subst hx
            rw [getGpsReading_last, shouldSample_true_last s sim e _ hcond]
          · intro _
            rw [getGpsReading_last, shouldSample_true_last s sim e _ hcond]
          · rw [List.chain'_append]
            refine ⟨hchain, List.chain'_singleton _, ?_⟩
            intro x hx y hy
            simp only [List.head?_cons, Option.mem_def, Option.some.injEq]
              at hy
            subst hy
            have hxts := hlastts x hx
            have hne : acc ≠ [] := by
              intro hnil
              rw [hnil] at hx
              simp at hx
            have hg := hgap hne
            refine ⟨?_, ?_, ?_⟩
            · show x.timestamp < sim
              rw [hxts]; linarith
            · show rate ≤ sim - x.timestamp
              rw [hxts, ← hrateq]; linarith
            · show sim - x.timestamp ≤ rate + cfg.simulation_dt
              rw [hxts]; linarith
          · intro pt hpt
            rcases List.mem_append.mp hpt with h | h
            · exact hbound pt h
            · rw [List.mem_singleton] at h
              subst h
              exact hT
        · -- no sample this tick
          simp only [shouldSample_false s sim e
            (Runner.update e cfg.simulation_dt r p).2 hcond,
            Bool.false_eq_true, if_false]
          apply ih
          · exact hrateq
          · rw [hrateq] at hcond
            push_neg at hcond
            linarith
          · rw [hrateq] at hcond
            push_neg at hcond
            linarith
          · exact hlastts
          · intro hne
            have := hgap hne
            linarith
          · exact hchain
          · exact hbound
      · exact ⟨hchain, hbound⟩

/-- Claim C8 — `generate(0)` returns no samples, and for every duration `T`
the emitted samples have strictly increasing timestamps, consecutive
timestamps spaced within `[interval, interval + dt]`, and every timestamp
(the last one in particular) strictly below `T`, hence below
`T + interval`. -/
theorem claim_C8_generate_samples (e : Ent) (cfg : Config) (r0 : Runner)
    (s0 : Sensor) (p : ℕ) (hdt : 0 < cfg.simulation_dt)
    (hrate : 0 ≤ s0.sampling_rate) (hlast : s0.last_sample_time = 0) :
    (generateRealisticRoute e cfg r0 s0 p 0).1 = [] ∧
    ∀ T : ℝ,
      List.Chain' (sampleRel s0.sampling_rate cfg.simulation_dt)
        (generateRealisticRoute e cfg r0 s0 p T).1 ∧
      ∀ pt ∈ (generateRealisticRoute e cfg r0 s0 p T).1,
        pt.timestamp < T ∧ pt.timestamp < T + s0.sampling_rate := by
  constructor
  · show (genLoop e cfg 0 (ffFuel 0 0 cfg.simulation_dt) r0 s0 p 0 []).1 = []
    rw [show ffFuel 0 0 cfg.simulation_dt = 0 by
      unfold ffFuel
      rw [sub_zero, zero_div, Int.ceil_zero]
      rfl]
    rfl
  · intro T
    have h := genLoop_props e cfg T s0.sampling_rate hdt hrate
      (ffFuel 0 T cfg.simulation_dt) r0 s0 p 0 [] rfl
      (by rw [hlast]; simp; positivity)
      (by rw [hlast])
      (by intro x hx; simp at hx)
      (by intro h; exact absurd rfl h)
      List.chain'_nil
      (by intro pt hpt; simp at hpt)
    refine ⟨h.1, fun pt hpt => ⟨h.2 pt hpt, by have := h.2 pt hpt; linarith⟩⟩

/-- Witness for C8 at the concrete default-style configuration. -/
theorem claim_C8_generate_samples_witness :
    (generateRealisticRoute eId cfgW walkRunner zeroSensor 0 0).1 = [] ∧
    (List.Chain' (sampleRel zeroSensor.sampling_rate cfgW.simulation_dt)
      (generateRealisticRoute eId cfgW walkRunner zeroSensor 0 1).1 ∧
     ∀ pt ∈ (generateRealisticRoute eId cfgW walkRunner zeroSensor 0 1).1,
       pt.timestamp < 1 ∧ pt.timestamp < 1 + zeroSensor.sampling_rate) :=
  ⟨(claim_C8_generate_samples eId cfgW walkRunner zeroSensor 0
      (by norm_num [cfgW]) (by norm_num [zeroSensor])
      (by norm_num [zeroSensor])).1,
   (claim_C8_generate_samples eId cfgW walkRunner zeroSensor 0
      (by norm_num [cfgW]) (by norm_num [zeroSensor])
      (by norm_num [zeroSensor])).2 1⟩

/-! ## `calculate_distance` and `get_route_statistics`
(`route.py` 804-840 and 938-979) -/

/-- Python's `round` to the nearest integer, ties to even (banker's
rounding, idealised over `ℝ`). -/
noncomputable def pyRoundHalfEven (x : ℝ) : ℤ :=
  if Int.fract x = 1 / 2 then (if Even ⌊x⌋ then ⌊x⌋ else ⌊x⌋ + 1)
  else round x

/-- Python's `round(x, 2)`. -/
noncomputable def pyRound2 (x : ℝ) : ℝ := (pyRoundHalfEven (x * 100) : ℝ) / 100

/-- Model of `math.atan2 y x`, via the complex argument. -/
noncomputable def pyAtan2 (y x : ℝ) : ℝ := Complex.arg ⟨x, y⟩

/-- Embedding of `RouteGenerator.calculate_distance(lat1, lng1, lat2, lng2)` — the
haversine great-circle distance, rounded to 2 decimals (`route.py`
804-840). -/
noncomputable def calculateDistance (lat1 lng1 lat2 lng2 : ℝ) : ℝ :=
  let earth_radius : ℝ := 6371000
  let rad_lat1 := lat1 * Real.pi / 180
  let rad_lng1 := lng1 * Real.pi / 180
  let rad_lat2 := lat2 * Real.pi / 180
  let rad_lng2 := lng2 * Real.pi / 180
  let delta_lat := rad_lat2 - rad_lat1
  let delta_lng := rad_lng2 - rad_lng1
  let a := Real.sin (delta_lat / 2) ^ 2 +
    Real.cos rad_lat1 * Real.cos rad_lat2 * Real.sin (delta_lng / 2) ^ 2
  let c := 2 * pyAtan2 (Real.sqrt a) (Real.sqrt (1 - a))
  pyRound2 (earth_radius * c)

/-- The pairwise-consecutive distance summation of `get_route_statistics`. -/
noncomputable def pairwiseDistanceSum : List GpsPoint → ℝ
  | a :: b :: rest =>
      calculateDistance a.latitude a.longitude b.latitude b.longitude +
        pairwiseDistanceSum (b :: rest)
  | _ => 0

/-- Per-state dwell-time accumulation of `get_route_statistics`. -/
noncomputable def stateTimesSum (st : RState) : List GpsPoint → ℝ
  | a :: b :: rest =>
      (if a.state = st then b.timestamp - a.timestamp else 0) +
        stateTimesSum st (b :: rest)
  | _ => 0

noncomputable def defaultPoint : GpsPoint :=
  { latitude := 0, longitude := 0, timestamp := 0, speed := 0,
    state := RState.RUNNING, distance := 0 }

/-- The statistics dictionary. -/
structure RouteStats where
  total_distance : ℝ
  duration : ℝ
  average_speed : ℝ
  average_pace : ℝ
  point_count : ℕ
  state_times : RState → ℝ

/-- The non-empty branch of `get_route_statistics`. -/
noncomputable def statsOf (pts : List GpsPoint) : RouteStats :=
  let total_distance := pairwiseDistanceSum pts
  let duration := (pts.getLastD defaultPoint).timestamp -
    (pts.headD defaultPoint).timestamp
  let avg_speed := if duration > 0 then total_distance / duration else 0
  { total_distance := pyRound2 total_distance
    duration := pyRound2 duration
    average_speed := pyRound2 avg_speed
    average_pace := if avg_speed > 0 then pyRound2 (1000 / (avg_speed * 60))
      else 0
    point_count := pts.length
    state_times := fun st => stateTimesSum st pts }

/-- Embedding of `RouteGenerator.get_route_statistics(gps_points)` (`route.py` 938-979):
the empty dict (`none`) on an empty input, the statistics otherwise. -/
noncomputable def getRouteStatistics (pts : List GpsPoint) :
    Option RouteStats :=
  match pts with
  | [] => none
  | _ :: _ => some (statsOf pts)

theorem getRouteStatistics_ne_nil (pts : List GpsPoint) (h : pts ≠ []) :
    getRouteStatistics pts = some (statsOf pts) := by
  cases pts with
  | nil => exact absurd rfl h
  | cons a tl => rfl

theorem pyRound2_zero : pyRound2 0 = 0 := by
  norm_num [pyRound2, pyRoundHalfEven, Int.fract]

theorem calculateDistance_self (lat lng : ℝ) :
    calculateDistance lat lng lat lng = 0 := by
  simp only [calculateDistance, pyAtan2, sub_self, zero_div, Real.sin_zero]
  norm_num [Real.sqrt_zero, Real.sqrt_one]
  rw [show (⟨1, 0⟩ : ℂ) = 1 from Complex.ext (by simp) (by simp)]
  rw [Complex.arg_one]
  norm_num [pyRound2_zero]

theorem pairwiseDistanceSum_const (pts : List GpsPoint)
    (h : ∀ a ∈ pts, ∀ b ∈ pts,
      a.latitude = b.latitude ∧ a.longitude = b.longitude) :
    pairwiseDistanceSum pts = 0 := by
  induction pts with
  | nil => rfl
  | cons a tl ih =>
      cases tl with
      | nil => rfl
      | cons b rest =>
          show calculateDistance a.latitude a.longitude b.latitude
              b.longitude + pairwiseDistanceSum (b :: rest) = 0
          have hab := h a (by simp) b (by simp)
          rw [← hab.1, ← hab.2, calculateDistance_self]
          rw [ih (fun x hx y hy =>
            h x (List.mem_cons_of_mem a hx) y (List.mem_cons_of_mem a hy))]
          norm_num

/-- Claim C10 — `get_route_statistics` on an empty sample list returns the
empty result without error; on any non-empty list spanning zero duration,
or spanning zero distance (all samples at one coordinate), both the average
speed and the average pace are reported as 0 instead of dividing by
zero. -/
theorem claim_C10_statistics_degenerate :
    getRouteStatistics [] = none ∧
    (∀ pts : List GpsPoint, pts ≠ [] →
      (pts.getLastD defaultPoint).timestamp =
        (pts.headD defaultPoint).timestamp →
      getRouteStatistics pts = some (statsOf pts) ∧
      (statsOf pts).average_speed = 0 ∧ (statsOf pts).average_pace = 0) ∧
    (∀ pts : List GpsPoint, pts ≠ [] →
      (∀ a ∈ pts, ∀ b ∈ pts,
        a.latitude = b.latitude ∧ a.longitude = b.longitude) →
      getRouteStatistics pts = some (statsOf pts) ∧
      (statsOf pts).average_speed = 0 ∧ (statsOf pts).average_pace = 0) := by
  refine ⟨rfl, ?_, ?_⟩
  · intro pts hne hdur
    refine ⟨getRouteStatistics_ne_nil pts hne, ?_, ?_⟩
    · show pyRound2 (if _ > 0 then _ else 0) = 0
      rw [if_neg (by rw [hdur]; simp), pyRound2_zero]
    · show (if _ > 0 then _ else 0) = 0
      rw [if_neg (by rw [if_neg (by rw [hdur]; simp)]; simp)]
  · intro pts hne hsame
    have hdist := pairwiseDistanceSum_const pts hsame
    have havg : (if ((pts.getLastD defaultPoint).timestamp -
        (pts.headD defaultPoint).timestamp) > 0 then
          pairwiseDistanceSum pts /
            ((pts.getLastD defaultPoint).timestamp -
              (pts.headD defaultPoint).timestamp)
        else 0) = 0 := by
      split_ifs with hpos
      · rw [hdist, zero_div]
      · rfl
    refine ⟨getRouteStatistics_ne_nil pts hne, ?_, ?_⟩
    · show pyRound2 (if _ > 0 then _ else 0) = 0
      rw [havg, pyRound2_zero]
    · show (if _ > 0 then _ else 0) = 0
      rw [if_neg (by rw [havg]; simp)]

/-- Witness for C10 at concrete two-point lists with zero span. -/
theorem claim_C10_statistics_degenerate_witness :
    ((statsOf [defaultPoint, defaultPoint]).average_speed = 0 ∧
      (statsOf [defaultPoint, defaultPoint]).average_pace = 0) ∧
    ((statsOf [defaultPoint, { defaultPoint with timestamp := 5 }]).average_speed
        = 0 ∧
      (statsOf [defaultPoint,
        { defaultPoint with timestamp := 5 }]).average_pace = 0) :=
  ⟨((claim_C10_statistics_degenerate.2.1 [defaultPoint, defaultPoint]
      (by simp) (by simp [List.getLastD, List.headD])).2),
   ((claim_C10_statistics_degenerate.2.2
      [defaultPoint, { defaultPoint with timestamp := 5 }] (by simp)
      (by
        intro a ha b hb
        simp only [List.mem_cons, List.mem_singleton, List.not_mem_nil,
          or_false] at ha hb
        rcases ha with ha | ha <;> rcases hb with hb | hb <;>
          subst ha <;> subst hb <;> exact ⟨rfl, rfl⟩)).2)⟩

end CampusRun
